import Mathlib

/-!
Shallow embedding of the conversation-persistence subsystem of
`prepzo_backend` (`src/main.py`): the in-memory conversation log, the
single-message and batch Supabase writes, the bounded retry queue and its
drain loop, and the idle watchdog.  Python dictionaries become Lean
structures, the global `retry_queue` and `conversation_history` are passed
and returned explicitly, and every external effect (the speaking flag, the
health probe, the upsert responses, generated uuids and clock reads) is an
explicit environment parameter.
-/

namespace Prepzo

/-- `MAX_RETRY_QUEUE_SIZE = 1000` (main.py:84). -/
def MAX_RETRY_QUEUE_SIZE : Nat := 1000

/-- A conversation-log entry (the dicts appended to `conversation_history`).
Fields mirror the keys the program writes: `role`, `content`, `timestamp`,
optional `message_id`, and `metadata["stored"]` (absent ⇒ `false`).
`serOk` abstracts whether `json.dumps` of the full dict succeeds and
`safeOk` whether `json.dumps` of the reduced 4-field dict succeeds; they
model the serializability of the payload, which Lean cannot inspect. -/
structure Message where
  role : String
  content : String
  timestamp : String
  message_id : Option String
  user_email : String
  stored : Bool
  serOk : Bool
  safeOk : Bool
deriving Repr, DecidableEq

/-- A retry-queue entry as built by `add_to_retry_queue` (main.py:2485-2504):
the reduced message snapshot plus bookkeeping fields. -/
structure RetryItem where
  retry_timestamp : String
  session_id : String
  participant_id : String
  role : String
  content : String
  raw_conversation : String
  message_count : Nat
  user_email : String
  timestamp : String
  message_id : String
  email_sent : Bool
  retry_count : Nat
deriving Repr, DecidableEq

/-- The `safe_message`/`retry_item` construction of main.py:2485-2504.
`conv = none` models a falsy (empty) conversation dict, whose `.get`
calls all yield the defaults; `now` models `get_current_timestamp()` /
`datetime.now().isoformat()` and `fresh` the generated `uuid.uuid4()`. -/
def mkRetryItem (now fresh sid pid : String) (conv : Option Message) : RetryItem :=
  match conv with
  | none =>
      { retry_timestamp := now, session_id := sid, participant_id := pid
        role := "unknown", content := "", raw_conversation := ""
        message_count := 1, user_email := "", timestamp := now
        message_id := fresh, email_sent := false, retry_count := 0 }
  | some m =>
      { retry_timestamp := now, session_id := sid, participant_id := pid
        role := m.role, content := m.content, raw_conversation := m.content
        message_count := 1, user_email := "", timestamp := m.timestamp
        message_id := m.message_id.getD fresh, email_sent := false
        retry_count := 0 }

/-- The trim of main.py:2508-2509: when the queue exceeds
`MAX_RETRY_QUEUE_SIZE`, keep only the newest `MAX_RETRY_QUEUE_SIZE`
entries (`retry_queue[-MAX_RETRY_QUEUE_SIZE:]`). -/
def trimQueue (q2 : List RetryItem) : List RetryItem :=
  if MAX_RETRY_QUEUE_SIZE < q2.length then
    q2.drop (q2.length - MAX_RETRY_QUEUE_SIZE)
  else q2

/-- `add_to_retry_queue` (main.py:2478-2515): build the retry item, append
it, and trim. -/
def add_to_retry_queue (now fresh sid pid : String) (conv : Option Message)
    (q : List RetryItem) : List RetryItem :=
  trimQueue (q ++ [mkRetryItem now fresh sid pid conv])

/-- Boolean containment of the character list `n` in `h`, mirroring
Python's `in` on strings. -/
def subChars (n : List Char) : List Char → Bool
  | [] => n.isEmpty
  | c :: t => n.isPrefixOf (c :: t) || subChars n t

/-- `needle in hay` for Python strings. -/
def strContains (hay needle : String) : Bool :=
  subChars needle.data hay.data

/-- Outcome of one Supabase upsert call as observed by the caller:
the response has truthy `data`, has truthy `error`, has neither, or the
call raised an exception carrying message `msg`. -/
inductive UpsertOutcome
  | ok
  | errField
  | neither
  | exn (msg : String)
deriving Repr, DecidableEq

/-- Environment of one `store_conversation_message` call: the speaking
flag (`agent and agent.is_speaking`), the `check_supabase_health` result,
the upsert outcome, the current timestamp and a fresh uuid. -/
structure SingleEnv where
  speaking : Bool
  healthy : Bool
  outcome : UpsertOutcome
  now : String
  fresh : String
deriving Repr, DecidableEq

/-- How a `store_conversation_message` call finished: returned a boolean,
or let an exception propagate to the caller. -/
inductive SingleResult
  | ret (b : Bool)
  | raised
deriving Repr, DecidableEq

/-- Observable effects of one `store_conversation_message` call. -/
structure SingleWrite where
  result : SingleResult
  probed : Bool
  attempted : Bool
  queue : List RetryItem
  log : List Message
deriving Repr, DecidableEq

/-- Python `str.lower()` on one ASCII character. -/
def pyCharLower (c : Char) : Char :=
  if 'A' ≤ c && c ≤ 'Z' then Char.ofNat (c.toNat + 32) else c

/-- Python `str.lower()` (ASCII fragment, which covers the error messages
compared against here). -/
def pyLower (s : String) : String :=
  String.mk (s.data.map pyCharLower)

/-- `"duplicate key" in error_message.lower()` (main.py:587). -/
def isDuplicateKeyError (msg : String) : Bool :=
  strContains (pyLower msg) "duplicate key"

/-- main.py:486-490: attach a generated `message_id` when the message has
none.  (In Python this mutates the shared dict, so an aliased log entry
gains the id too; the `stored` flag is untouched.) -/
def attachId (fresh : String) (m : Message) : Message :=
  if m.message_id.isNone then { m with message_id := some fresh } else m

/-- `store_conversation_message` (main.py:452-601), the later definition
that shadows the one at main.py:310.  `conv = none` models a falsy
(empty) `conversation` dict.  The global `conversation_history` is passed
as `log`: the function never touches it (no line of main.py:452-601 reads
or writes `conversation_history`), so it is returned unchanged. -/
def store_conversation_message (env : SingleEnv) (sid pid : String)
    (conv : Option Message) (q : List RetryItem) (log : List Message) :
    SingleWrite :=
  -- main.py:460-467: during speech, system messages go straight to the queue
  if env.speaking && pid == "system" then
    { result := .ret false, probed := false, attempted := false
      queue := add_to_retry_queue env.now env.fresh sid pid conv q, log := log }
  -- main.py:469-478: health gate
  else if !env.healthy then
    { result := .ret false, probed := true, attempted := false
      queue := add_to_retry_queue env.now env.fresh sid pid conv q, log := log }
  else
    match conv with
    -- main.py:481-483: empty message data, skip storage
    | none =>
        { result := .ret false, probed := true, attempted := false
          queue := q, log := log }
    | some m =>
      -- main.py:486-490: attach a message_id when missing
      let m := attachId env.fresh m
      -- main.py:493-527: serialization with reduced-record fallback;
      -- the fallback json.dumps (main.py:523) is NOT guarded, so a second
      -- failure propagates out of the function
      if !m.serOk && !m.safeOk then
        { result := .raised, probed := true, attempted := false
          queue := q, log := log }
      else
        -- main.py:545-601: the upsert and its error policy
        match env.outcome with
        | .ok =>
            { result := .ret true, probed := true, attempted := true
              queue := q, log := log }
        | .errField =>
            { result := .ret false, probed := true, attempted := true
              queue := add_to_retry_queue env.now env.fresh sid pid (some m) q
              log := log }
        | .neither =>
            { result := .ret false, probed := true, attempted := true
              queue := add_to_retry_queue env.now env.fresh sid pid (some m) q
              log := log }
        | .exn msg =>
            if isDuplicateKeyError msg then
              { result := .ret true, probed := true, attempted := true
                queue := q, log := log }
            else
              { result := .ret false, probed := true, attempted := true
                queue := add_to_retry_queue env.now env.fresh sid pid (some m) q
                log := log }

/-! ### Batch flush: `store_full_conversation` (main.py:604-799) -/

/-- A row of `insert_data` sent to the `conversation_histories` table
(main.py:672-681 / 704-713).  `convFull` records whether the
`conversation` column holds the full serialization or the reduced
4-field fallback. -/
structure Record where
  session_id : String
  participant_id : String
  convFull : Bool
  raw_conversation : String
  message_count : Nat
  user_email : String
  timestamp : String
  email_sent : Bool
deriving Repr, DecidableEq

/-- `insert_data` for a message whose full serialization succeeded
(main.py:672-681).  Log entries in this program never carry a top-level
`participant_id` key, so `message.get("participant_id",
message.get("role", "unknown"))` is the role. -/
def fullRec (sid : String) (m : Message) : Record :=
  { session_id := sid, participant_id := m.role, convFull := true
    raw_conversation := m.content, message_count := 1
    user_email := m.user_email, timestamp := m.timestamp, email_sent := false }

/-- `insert_data` built from the reduced `safe_message`
(main.py:689-713): `user_email` is the empty string there. -/
def safeRec (sid : String) (m : Message) : Record :=
  { session_id := sid, participant_id := m.role, convFull := false
    raw_conversation := m.content, message_count := 1
    user_email := "", timestamp := m.timestamp, email_sent := false }

/-- The collection loop of main.py:639-718: walk the log, skip stored
entries, attach a `message_id` where missing (this mutates the shared log
entry), serialize with the reduced fallback, and drop (with a log line)
any message whose fallback serialization also fails.  Returns the updated
log and `messages_to_store`.  `i` indexes the generated uuids. -/
def collectGo (sid : String) (fresh : Nat → String) :
    Nat → List Message → List Message × List Record
  | _, [] => ([], [])
  | i, m :: rest =>
    if m.stored then
      let (l, r) := collectGo sid fresh (i + 1) rest
      (m :: l, r)
    else
      let m := attachId (fresh i) m
      let (l, r) := collectGo sid fresh (i + 1) rest
      if m.serOk then (m :: l, fullRec sid m :: r)
      else if m.safeOk then (m :: l, safeRec sid m :: r)
      else (m :: l, r)

/-- `range(0, len(messages_to_store), batch_size)` slicing with
`batch_size = 10` (main.py:721-725), written with explicit fuel so it
reduces structurally. -/
def chunkGo : Nat → List Record → List (List Record)
  | 0, _ => []
  | _, [] => []
  | fuel + 1, r :: t => ((r :: t).take 10) :: chunkGo fuel ((r :: t).drop 10)

/-- The batches a flush iterates over: consecutive groups of 10. -/
def chunk10 (l : List Record) : List (List Record) :=
  chunkGo l.length l

/-- `markFirst ts pid log` is the marking loop of main.py:740-749: flip
`metadata["stored"]` on the first log entry whose `timestamp` equals `ts`
and whose `role` equals the record's `participant_id`, then `break`.
Returns the updated log and whether a match was found (the match
increments `success_count`). -/
def markFirst (ts pid : String) : List Message → List Message × Bool
  | [] => ([], false)
  | m :: rest =>
    if m.timestamp == ts && m.role == pid then
      ({ m with stored := true } :: rest, true)
    else
      let (l, b) := markFirst ts pid rest
      (m :: l, b)

/-- Marking every member of a successfully upserted batch
(main.py:735-749). -/
def markBatch : List Message → List Record → List Message × Nat
  | log, [] => (log, 0)
  | log, r :: rest =>
    let (log2, found) := markFirst r.timestamp r.participant_id log
    let (log3, c) := markBatch log2 rest
    (log3, (if found then 1 else 0) + c)

/-- Outcome of one batch upsert as the flush observes it: truthy
`response.data`, a response without data (warning only), or an exception
(which triggers the per-member fallback, main.py:753-778). -/
inductive BatchOutcome
  | ok
  | noData
  | exn
deriving Repr, DecidableEq

/-- Environment of one `store_full_conversation` call.  `healthy` is the
state of the remote store: the flush never reads it (main.py:604-624
checks only that the client object is non-None), which is exactly what
claim C2 is about. -/
structure FlushEnv where
  clientInit : Bool
  sessionSet : Bool
  healthy : Bool
  batchOutcome : Nat → BatchOutcome
  singleOk : Nat → Nat → Bool
  fresh : Nat → String

/-- Externally visible actions of a flush, in order. -/
inductive FlushEvent
  | probe
  | batchUpsert (recs : List Record)
  | singleUpsert (r : Record)
  | sleep
deriving Repr, DecidableEq

/-- Result of a flush: the updated log, the action trace, and
`success_count`. -/
structure FlushResult where
  log : List Message
  events : List FlushEvent
  successCount : Nat
deriving Repr, DecidableEq

/-- The per-member fallback of main.py:756-778: upsert each record of the
failed batch individually; when the single upsert returns data, mark the
matching log entry.  A failing single upsert is only logged.  `j` indexes
the member within the group `k`. -/
def singlesGo (env : FlushEnv) (k : Nat) :
    Nat → List Message → List Record → FlushResult
  | _, log, [] => { log := log, events := [], successCount := 0 }
  | j, log, r :: rest =>
    if env.singleOk k j then
      let (log2, found) := markFirst r.timestamp r.participant_id log
      let res := singlesGo env k (j + 1) log2 rest
      { log := res.log, events := .singleUpsert r :: res.events
        successCount := (if found then 1 else 0) + res.successCount }
    else
      let res := singlesGo env k (j + 1) log rest
      { log := res.log, events := .singleUpsert r :: res.events
        successCount := res.successCount }

/-- The batch loop of main.py:724-781: upsert each group; on success mark
its members, on an exception fall back to single upserts; sleep 0.5s
after every group.  `k` is the group index. -/
def flushGroups (env : FlushEnv) :
    Nat → List Message → List (List Record) → FlushResult
  | _, log, [] => { log := log, events := [], successCount := 0 }
  | k, log, batch :: rest =>
    match env.batchOutcome k with
    | .ok =>
      let (log2, c) := markBatch log batch
      let res := flushGroups env (k + 1) log2 rest
      { log := res.log, events := .batchUpsert batch :: .sleep :: res.events
        successCount := c + res.successCount }
    | .noData =>
      let res := flushGroups env (k + 1) log rest
      { log := res.log, events := .batchUpsert batch :: .sleep :: res.events
        successCount := res.successCount }
    | .exn =>
      let resS := singlesGo env k 0 log batch
      let res := flushGroups env (k + 1) resS.log rest
      { log := res.log
        events := .batchUpsert batch :: resS.events ++ .sleep :: res.events
        successCount := resS.successCount + res.successCount }

/-- `store_full_conversation` (main.py:604-799), the later definition that
shadows the one at main.py:356.  Note the guards: it requires only a
non-None client and a set `session_id` — it never calls
`check_supabase_health`. -/
def store_full_conversation (env : FlushEnv) (sid : String)
    (log : List Message) : FlushResult :=
  if !env.clientInit then { log := log, events := [], successCount := 0 }
  else if !env.sessionSet then { log := log, events := [], successCount := 0 }
  else if log.isEmpty then { log := log, events := [], successCount := 0 }
  else if (log.filter fun m => !m.stored).length == 0 then
    { log := log, events := [], successCount := 0 }
  else
    let (log2, recs) := collectGo sid env.fresh 0 log
    flushGroups env 0 log2 (chunk10 recs)

/-! ### Retry drain: `process_retry_queue` (main.py:2518-2605) -/

/-- Outcome of the upsert for one retry item: truthy `response.data`, a
response without data, or an exception. -/
inductive DrainOutcome
  | ok
  | noData
  | exn
deriving Repr, DecidableEq

/-- Environment of one drain cycle: the health-probe result and the
upsert outcome for the `k`-th processed item. -/
structure DrainEnv where
  healthy : Nat → Bool
  outcome : Nat → DrainOutcome

/-- What happened to one processed item. -/
inductive DrainAction
  | skippedExhausted
  | pushedUnhealthy
  | stored
  | pushedFailed
deriving Repr, DecidableEq

/-- Result of a drain cycle: the queue left behind, `success_count`, and
the per-item action trace (item index in the popped prefix, action). -/
structure DrainResult where
  queue : List RetryItem
  successCount : Nat
  trace : List (Nat × DrainAction)
deriving Repr, DecidableEq

/-- The item loop of main.py:2543-2601.  `q` is the live `retry_queue`
(already stripped of the popped prefix); push-backs append to its end. -/
def drainGo (env : DrainEnv) : Nat → List RetryItem → List RetryItem → DrainResult
  | _, [], q => { queue := q, successCount := 0, trace := [] }
  | k, it :: rest, q =>
    if 5 ≤ it.retry_count then
      let r := drainGo env (k + 1) rest q
      { r with trace := (k, .skippedExhausted) :: r.trace }
    else if !env.healthy k then
      let r := drainGo env (k + 1) rest (q ++ [{ it with retry_count := it.retry_count + 1 }])
      { r with trace := (k, .pushedUnhealthy) :: r.trace }
    else
      match env.outcome k with
      | .ok =>
        let r := drainGo env (k + 1) rest q
        { queue := r.queue, successCount := r.successCount + 1
          trace := (k, .stored) :: r.trace }
      | .noData =>
        let r := drainGo env (k + 1) rest (q ++ [{ it with retry_count := it.retry_count + 1 }])
        { r with trace := (k, .pushedFailed) :: r.trace }
      | .exn =>
        let r := drainGo env (k + 1) rest (q ++ [{ it with retry_count := it.retry_count + 1 }])
        { r with trace := (k, .pushedFailed) :: r.trace }

/-- `process_retry_queue` (main.py:2518-2605): pop up to `batch_size`
items off the front and run the item loop over them. -/
def process_retry_queue (env : DrainEnv) (clientInit : Bool)
    (batch_size : Nat) (q : List RetryItem) : DrainResult :=
  if q.isEmpty then { queue := q, successCount := 0, trace := [] }
  else if !clientInit then { queue := q, successCount := 0, trace := [] }
  else
    let n := min batch_size q.length
    drainGo env 0 (q.take n) (q.drop n)

/-! ### Idle watchdog: `check_connection_status` (main.py:1467-1528) -/

/-- Environment of one watchdog tick: the ISO-timestamp parser
(`datetime.fromisoformat(...).timestamp()`, `none` = `ValueError`),
`time.time()` at the tick, and `get_current_timestamp()` for the
synthetic message. -/
structure WatchdogEnv where
  parseTs : String → Option Int
  now : Int
  nowStr : String

/-- The synthetic inactivity message of main.py:1501-1505 (a dict with
only `role`, `content` and `timestamp`; no metadata, so unstored). -/
def inactivitySystemMessage (nowStr : String) : Message :=
  { role := "system", content := "Call automatically ended due to inactivity."
    timestamp := nowStr, message_id := none, user_email := ""
    stored := false, serOk := true, safeOk := true }

/-- `inactivity_threshold = 300` (main.py:1469). -/
def inactivity_threshold : Int := 300

/-- The watchdog wakes every 120 seconds (main.py:1476). -/
def watchdogInterval : Int := 120

/-- main.py:2644: `class ForceDisconnectError(Exception)` — so the
watchdog's own `except Exception` clause (main.py:1521) catches it. -/
def forceDisconnectIsException : Bool := true

/-- Result of one watchdog tick. `loops` is whether the `while True`
continues; `escalated` is whether a `ForceDisconnectError` escaped
`check_connection_status` to its caller (i.e. whether anything outside
the watchdog could react by disconnecting); `storeLaunched` is whether a
storage task for the synthetic message was spawned. -/
structure WatchdogResult where
  log : List Message
  lastActivity : Int
  loops : Bool
  escalated : Bool
  storeLaunched : Bool
deriving Repr, DecidableEq

/-- One iteration of the watchdog loop (main.py:1473-1523), after its
120s sleep.  The `raise ForceDisconnectError` of main.py:1519 sits inside
a `try` whose `except Exception` (main.py:1521) immediately catches it,
logs, and `break`s — modelled by the `forceDisconnectIsException`
branch. -/
def check_connection_status_step (env : WatchdogEnv) (log : List Message)
    (lastActivity : Int) : WatchdogResult :=
  let last2 :=
    match log.getLast? with
    | none => lastActivity
    | some m =>
      let t := (env.parseTs m.timestamp).getD 0
      if lastActivity < t then t else lastActivity
  let inactivity := env.now - last2
  if inactivity_threshold < inactivity then
    let msg := inactivitySystemMessage env.nowStr
    let appended := decide (msg ∉ log)
    let log2 := if msg ∈ log then log else log ++ [msg]
    -- the raise of main.py:1519 escapes only if ForceDisconnectError were
    -- not an Exception; `except Exception` catches it, logs, and breaks
    { log := log2, lastActivity := last2, loops := false
      escalated := !forceDisconnectIsException, storeLaunched := appended }
  else
    { log := log, lastActivity := last2, loops := true
      escalated := false, storeLaunched := false }

/-! ### Claim-facing characterizations and concrete instances -/

/-- Per-item drain policy, written from the claim's wording ("if
unhealthy, increment and push back without a write; on success discard;
on failure increment and push back; drop exhausted items"), to be
compared with the fold `drainGo`.  `none` = the item is not pushed back. -/
def specDrainPush (env : DrainEnv) (k : Nat) (it : RetryItem) : Option RetryItem :=
  if 5 ≤ it.retry_count then none
  else if !env.healthy k then some { it with retry_count := it.retry_count + 1 }
  else
    match env.outcome k with
    | .ok => none
    | .noData => some { it with retry_count := it.retry_count + 1 }
    | .exn => some { it with retry_count := it.retry_count + 1 }

/-- The action the drain takes on one item, written from the claim's
wording, to be compared with the trace `drainGo` produces. -/
def specDrainAction (env : DrainEnv) (k : Nat) (it : RetryItem) : DrainAction :=
  if 5 ≤ it.retry_count then .skippedExhausted
  else if !env.healthy k then .pushedUnhealthy
  else
    match env.outcome k with
    | .ok => .stored
    | .noData => .pushedFailed
    | .exn => .pushedFailed

/-- Per-message serialization policy of the batch collection loop,
written message-wise for comparison with `collectGo`: stored messages are
skipped, a full serialization is preferred, the reduced fallback is tried
once, and a message failing both is dropped (`none`). -/
def recordOf (sid : String) (m : Message) : Option Record :=
  if m.stored then none
  else if m.serOk then some (fullRec sid m)
  else if m.safeOk then some (safeRec sid m)
  else none

/-- Repeated `add_to_retry_queue` calls (scenario driver for the queue
bound). -/
def enqueueSeq (now fresh sid pid : String) (cs : List (Option Message))
    (q : List RetryItem) : List RetryItem :=
  cs.foldl (fun acc c => add_to_retry_queue now fresh sid pid c acc) q

/-- A family of pairwise-distinct messages (distinct timestamps, witnessed
by the timestamp length). -/
def c3msg (i : Nat) : Message :=
  { role := "user", content := "m", timestamp := String.mk (List.replicate i 'a')
    message_id := some "id", user_email := ""
    stored := false, serOk := true, safeOk := true }

/-- The retry item `add_to_retry_queue` builds for `c3msg i`. -/
def c3item (i : Nat) : RetryItem :=
  mkRetryItem "N" "F" "s" "user" (some (c3msg i))

/-- The queue left after 1001 distinct enqueues into an empty queue. -/
def c3queue : List RetryItem :=
  enqueueSeq "N" "F" "s" "user" ((List.range 1001).map fun i => some (c3msg i)) []

/-- A generic healthy unstored message used in concrete scenarios. -/
def demoMsg (i : Nat) : Message :=
  { role := "user", content := "m", timestamp := "ts" ++ toString i
    message_id := some ("id" ++ toString i), user_email := ""
    stored := false, serOk := true, safeOk := true }

/-- Environment of a successful single write: not speaking, healthy
store, upsert returns data. -/
def envOk : SingleEnv :=
  { speaking := false, healthy := true, outcome := .ok, now := "N", fresh := "F" }

/-- A message whose payload defeats both the full and the reduced
serialization (e.g. a non-encodable `content` object). -/
def badMsg : Message :=
  { role := "user", content := "m", timestamp := "ts0", message_id := some "id0"
    user_email := "", stored := false, serOk := false, safeOk := false }

/-- Flush environment for the 12-message scenario: the first group upsert
succeeds, the second raises, every fallback single upsert succeeds.  The
remote store is marked unhealthy to exhibit that the flush never asks. -/
def fenv12 : FlushEnv :=
  { clientInit := true, sessionSet := true, healthy := false
    batchOutcome := fun k => if k == 0 then .ok else .exn
    singleOk := fun _ _ => true, fresh := fun _ => "F" }

/-- Twelve unstored messages. -/
def log12 : List Message := (List.range 12).map demoMsg

/-- Watchdog environment: the tick happens 301 seconds after the latest
log timestamp "T0" (which parses to 1000). -/
def wenv301 : WatchdogEnv :=
  { parseTs := fun s => if s == "T0" then some 1000 else none
    now := 1301, nowStr := "T301" }

/-- The single stale log entry of the watchdog scenario. -/
def staleMsg : Message :=
  { role := "user", content := "hi", timestamp := "T0", message_id := none
    user_email := "", stored := false, serOk := true, safeOk := true }

/-- An exhausted retry item (five failed attempts). -/
def exhaustedItem : RetryItem :=
  { mkRetryItem "N" "F" "s" "user" (some (demoMsg 2)) with retry_count := 5 }

/-- Single-write environment whose upsert response carries an `error`. -/
def envErr : SingleEnv := { envOk with outcome := .errField }

/-- Single-write environment whose upsert raises an upper-case duplicate
key error (as produced by some drivers). -/
def envDup : SingleEnv :=
  { envOk with outcome := .exn "DUPLICATE KEY value violates unique constraint" }

/-- Single-write environment whose upsert raises a lower-case duplicate
key error. -/
def envDupLower : SingleEnv :=
  { envOk with outcome := .exn "duplicate key value violates unique constraint" }

/-- Single-write environment while the agent is speaking. -/
def envSpeak : SingleEnv := { envOk with speaking := true }

/-- Single-write environment with an unhealthy store. -/
def envDown : SingleEnv := { envOk with healthy := false }

/-- Drain environment: store healthy, every upsert succeeds. -/
def denvOk : DrainEnv := { healthy := fun _ => true, outcome := fun _ => .ok }

/-- Drain environment: store unhealthy at every probe. -/
def denvDown : DrainEnv := { healthy := fun _ => false, outcome := fun _ => .ok }

/-! ### Helper lemmas -/

theorem add_to_retry_queue_length_le (now fresh sid pid : String)
    (conv : Option Message) (q : List RetryItem) :
    (add_to_retry_queue now fresh sid pid conv q).length ≤ MAX_RETRY_QUEUE_SIZE := by
  unfold add_to_retry_queue trimQueue
  split
  · simp only [List.length_drop]
    omega
  · next h => omega

theorem add_to_retry_queue_eq_append (now fresh sid pid : String)
    (conv : Option Message) (q : List RetryItem)
    (h : q.length < MAX_RETRY_QUEUE_SIZE) :
    add_to_retry_queue now fresh sid pid conv q
      = q ++ [mkRetryItem now fresh sid pid conv] := by
  unfold add_to_retry_queue trimQueue
  rw [if_neg (by simp only [List.length_append, List.length_cons, List.length_nil]; omega)]

theorem add_to_retry_queue_eq_of_full (now fresh sid pid : String)
    (conv : Option Message) (q : List RetryItem)
    (h : q.length = MAX_RETRY_QUEUE_SIZE) :
    add_to_retry_queue now fresh sid pid conv q
      = q.drop 1 ++ [mkRetryItem now fresh sid pid conv] := by
  unfold add_to_retry_queue trimQueue
  rw [if_pos (by simp only [List.length_append, List.length_cons, List.length_nil]; omega)]
  have h2 : (q ++ [mkRetryItem now fresh sid pid conv]).length - MAX_RETRY_QUEUE_SIZE = 1 := by
    simp only [List.length_append, List.length_cons, List.length_nil]
    omega
  rw [h2, List.drop_append_of_le_length (by rw [h]; decide)]

theorem enqueueSeq_eq_append (now fresh sid pid : String) :
    ∀ (cs : List (Option Message)) (q : List RetryItem),
      q.length + cs.length ≤ MAX_RETRY_QUEUE_SIZE →
      enqueueSeq now fresh sid pid cs q
        = q ++ cs.map (mkRetryItem now fresh sid pid) := by
  intro cs
  induction cs with
  | nil => intro q h; simp [enqueueSeq]
  | cons c cs ih =>
    intro q h
    simp only [List.length_cons] at h
    simp only [enqueueSeq, List.foldl_cons]
    rw [show add_to_retry_queue now fresh sid pid c q
          = q ++ [mkRetryItem now fresh sid pid c] from
        add_to_retry_queue_eq_append now fresh sid pid c q (by omega)]
    have hx := ih (q ++ [mkRetryItem now fresh sid pid c])
      (by simp only [List.length_append, List.length_cons, List.length_nil]; omega)
    simp only [enqueueSeq] at hx
    rw [hx]
    simp

theorem c3item_timestamp (i : Nat) :
    (c3item i).timestamp = String.mk (List.replicate i 'a') := rfl

theorem c3item_inj {i j : Nat} (h : c3item i = c3item j) : i = j := by
  have ht := congrArg RetryItem.timestamp h
  rw [c3item_timestamp, c3item_timestamp] at ht
  have hd : List.replicate i 'a' = List.replicate j 'a' := by
    injection ht
  have := congrArg List.length hd
  simpa using this

theorem c3queue_eq :
    c3queue = ((List.range 999).map fun i => c3item (i + 1)) ++ [c3item 1000] := by
  unfold c3queue
  rw [List.range_succ, List.map_append, List.map_cons, List.map_nil]
  unfold enqueueSeq
  rw [List.foldl_append]
  have h1 : List.foldl (fun acc c => add_to_retry_queue "N" "F" "s" "user" c acc) []
      ((List.range 1000).map fun i => some (c3msg i))
      = (List.range 1000).map c3item := by
    have hx := enqueueSeq_eq_append "N" "F" "s" "user"
      ((List.range 1000).map fun i => some (c3msg i)) []
      (by simp [MAX_RETRY_QUEUE_SIZE])
    simp only [enqueueSeq] at hx
    rw [hx, List.map_map]
    simp [c3item, Function.comp]
  rw [h1]
  simp only [List.foldl_cons, List.foldl_nil]
  rw [add_to_retry_queue_eq_of_full _ _ _ _ _ _ (by simp [MAX_RETRY_QUEUE_SIZE])]
  have h2 : ((List.range 1000).map c3item).drop 1
      = (List.range 999).map fun i => c3item (i + 1) := by
    have : List.range 1000 = 0 :: (List.range 999).map Nat.succ := by
      have := List.range_succ_eq_map 999
      simpa using this
    rw [this]
    simp [List.map_map, Function.comp]
  rw [h2]
  rfl

theorem attachId_serOk (f : String) (m : Message) : (attachId f m).serOk = m.serOk := by
  unfold attachId; split <;> rfl

theorem attachId_safeOk (f : String) (m : Message) : (attachId f m).safeOk = m.safeOk := by
  unfold attachId; split <;> rfl

theorem attachId_stored (f : String) (m : Message) : (attachId f m).stored = m.stored := by
  unfold attachId; split <;> rfl

theorem fullRec_attachId (sid f : String) (m : Message) :
    fullRec sid (attachId f m) = fullRec sid m := by
  unfold attachId; split <;> rfl

theorem safeRec_attachId (sid f : String) (m : Message) :
    safeRec sid (attachId f m) = safeRec sid m := by
  unfold attachId; split <;> rfl

theorem scm_log_unchanged (env : SingleEnv) (sid pid : String)
    (conv : Option Message) (q : List RetryItem) (log : List Message) :
    (store_conversation_message env sid pid conv q log).log = log := by
  cases conv <;> simp only [store_conversation_message] <;> (repeat' split) <;> rfl

theorem scm_serialization_ok (env : SingleEnv) (m : Message)
    (h3 : (m.serOk || m.safeOk) = true) :
    (!(attachId env.fresh m).serOk && !(attachId env.fresh m).safeOk) = false := by
  rw [attachId_serOk, attachId_safeOk]
  revert h3
  cases m.serOk <;> cases m.safeOk <;> simp

theorem scm_ok (env : SingleEnv) (sid pid : String) (m : Message)
    (q : List RetryItem) (log : List Message)
    (h1 : (env.speaking && pid == "system") = false)
    (h2 : env.healthy = true)
    (h3 : (m.serOk || m.safeOk) = true)
    (h4 : env.outcome = .ok) :
    store_conversation_message env sid pid (some m) q log
      = { result := .ret true, probed := true, attempted := true
          queue := q, log := log } := by
  simp only [store_conversation_message, h1, h2, h4,
    scm_serialization_ok env m h3]
  rfl

theorem scm_fail_enqueue (env : SingleEnv) (sid pid : String) (m : Message)
    (q : List RetryItem) (log : List Message)
    (h1 : (env.speaking && pid == "system") = false)
    (h2 : env.healthy = true)
    (h3 : (m.serOk || m.safeOk) = true)
    (h4 : env.outcome = .errField ∨ env.outcome = .neither
      ∨ ∃ s, env.outcome = .exn s ∧ isDuplicateKeyError s = false) :
    store_conversation_message env sid pid (some m) q log
      = { result := .ret false, probed := true, attempted := true
          queue := add_to_retry_queue env.now env.fresh sid pid
            (some (attachId env.fresh m)) q
          log := log } := by
  have hser := scm_serialization_ok env m h3
  rcases h4 with h4 | h4 | ⟨s, h4, h5⟩
  · simp only [store_conversation_message, h1, h2, h4, hser]; rfl
  · simp only [store_conversation_message, h1, h2, h4, hser]; rfl
  · simp only [store_conversation_message, h1, h2, h4, h5, hser]; rfl

theorem scm_duplicate (env : SingleEnv) (sid pid : String) (m : Message)
    (q : List RetryItem) (log : List Message) (s : String)
    (h1 : (env.speaking && pid == "system") = false)
    (h2 : env.healthy = true)
    (h3 : (m.serOk || m.safeOk) = true)
    (h4 : env.outcome = .exn s)
    (h5 : isDuplicateKeyError s = true) :
    store_conversation_message env sid pid (some m) q log
      = { result := .ret true, probed := true, attempted := true
          queue := q, log := log } := by
  simp only [store_conversation_message, h1, h2, h4, h5,
    scm_serialization_ok env m h3]
  rfl

theorem scm_raised (env : SingleEnv) (sid pid : String) (m : Message)
    (q : List RetryItem) (log : List Message)
    (h1 : (env.speaking && pid == "system") = false)
    (h2 : env.healthy = true)
    (h3 : m.serOk = false) (h3x : m.safeOk = false) :
    store_conversation_message env sid pid (some m) q log
      = { result := .raised, probed := true, attempted := false
          queue := q, log := log } := by
  have hser : (!(attachId env.fresh m).serOk && !(attachId env.fresh m).safeOk) = true := by
    rw [attachId_serOk, attachId_safeOk, h3, h3x]
    rfl
  simp only [store_conversation_message, h1, h2, hser]
  rfl

theorem collectGo_records (sid : String) (fresh : Nat → String) :
    ∀ (log : List Message) (i : Nat),
      (collectGo sid fresh i log).2 = log.filterMap (recordOf sid) := by
  intro log
  induction log with
  | nil => intro i; rfl
  | cons m rest ih =>
    intro i
    cases hs : m.stored with
    | true => simp [collectGo, hs, recordOf, ih]
    | false =>
      cases hso : m.serOk with
      | true =>
        simp [collectGo, hs, hso, recordOf, ih, attachId_serOk, fullRec_attachId]
      | false =>
        cases hsa : m.safeOk with
        | true =>
          simp [collectGo, hs, hso, hsa, recordOf, ih, attachId_serOk,
            attachId_safeOk, safeRec_attachId]
        | false =>
          simp [collectGo, hs, hso, hsa, recordOf, ih, attachId_serOk,
            attachId_safeOk]

/-- C3: the Retry Queue never exceeds 1000 items after an enqueue
completes; enqueueing 1001 distinct items into an empty queue leaves
exactly 1000 entries, with the 1st enqueued item absent and the 1001st
present. -/
theorem C3_retry_queue_bound :
    (∀ (now fresh sid pid : String) (conv : Option Message) (q : List RetryItem),
      (add_to_retry_queue now fresh sid pid conv q).length ≤ 1000)
    ∧ c3queue.length = 1000
    ∧ c3item 0 ∉ c3queue
    ∧ c3item 1000 ∈ c3queue := by
  refine ⟨fun now fresh sid pid conv q => add_to_retry_queue_length_le now fresh sid pid conv q,
    ?_, ?_, ?_⟩
  · rw [c3queue_eq]
    simp
  · rw [c3queue_eq]
    intro hmem
    rcases List.mem_append.mp hmem with hL | hR
    · rcases List.mem_map.mp hL with ⟨i, _, hei⟩
      have := c3item_inj hei
      omega
    · have hx : c3item 0 = c3item 1000 := by simpa using hR
      have := c3item_inj hx
      omega
  · rw [c3queue_eq]
    exact List.mem_append_right _ (by simp)

theorem singlesGo_events (env : FlushEnv) (k : Nat) :
    ∀ (recs : List Record) (j : Nat) (log : List Message),
      (singlesGo env k j log recs).events = recs.map FlushEvent.singleUpsert := by
  intro recs
  induction recs with
  | nil => intro j log; rfl
  | cons r rest ih =>
    intro j log
    cases hok : env.singleOk k j with
    | true => simp [singlesGo, hok, ih]
    | false => simp [singlesGo, hok, ih]

theorem flushGroups_no_probe (env : FlushEnv) :
    ∀ (chunks : List (List Record)) (k : Nat) (log : List Message),
      FlushEvent.probe ∉ (flushGroups env k log chunks).events := by
  intro chunks
  induction chunks with
  | nil => intro k log; simp [flushGroups]
  | cons b rest ih =>
    intro k log
    cases hb : env.batchOutcome k with
    | ok => simp [flushGroups, hb, ih]
    | noData => simp [flushGroups, hb, ih]
    | exn => simp [flushGroups, hb, ih, singlesGo_events]

theorem store_full_conversation_no_probe (env : FlushEnv) (sid : String)
    (log : List Message) :
    FlushEvent.probe ∉ (store_full_conversation env sid log).events := by
  unfold store_full_conversation
  (repeat' split) <;> first
    | simp
    | apply flushGroups_no_probe

theorem drainGo_queue (env : DrainEnv) :
    ∀ (items : List RetryItem) (k : Nat) (q : List RetryItem),
      (drainGo env k items q).queue
        = q ++ ((items.enumFrom k).filterMap fun p => specDrainPush env p.1 p.2) := by
  intro items
  induction items with
  | nil => intro k q; simp [drainGo]
  | cons it rest ih =>
    intro k q
    by_cases h5 : 5 ≤ it.retry_count
    · simp [drainGo, h5, specDrainPush, ih, List.enumFrom]
    · cases hh : env.healthy k with
      | false => simp [drainGo, h5, hh, specDrainPush, ih, List.enumFrom]
      | true =>
        cases ho : env.outcome k with
        | ok => simp [drainGo, h5, hh, ho, specDrainPush, ih, List.enumFrom]
        | noData => simp [drainGo, h5, hh, ho, specDrainPush, ih, List.enumFrom]
        | exn => simp [drainGo, h5, hh, ho, specDrainPush, ih, List.enumFrom]

theorem drainGo_trace (env : DrainEnv) :
    ∀ (items : List RetryItem) (k : Nat) (q : List RetryItem),
      (drainGo env k items q).trace
        = (items.enumFrom k).map fun p => (p.1, specDrainAction env p.1 p.2) := by
  intro items
  induction items with
  | nil => intro k q; simp [drainGo]
  | cons it rest ih =>
    intro k q
    by_cases h5 : 5 ≤ it.retry_count
    · simp [drainGo, h5, specDrainAction, ih, List.enumFrom]
    · cases hh : env.healthy k with
      | false => simp [drainGo, h5, hh, specDrainAction, ih, List.enumFrom]
      | true =>
        cases ho : env.outcome k with
        | ok => simp [drainGo, h5, hh, ho, specDrainAction, ih, List.enumFrom]
        | noData => simp [drainGo, h5, hh, ho, specDrainAction, ih, List.enumFrom]
        | exn => simp [drainGo, h5, hh, ho, specDrainAction, ih, List.enumFrom]

theorem process_retry_queue_spec (env : DrainEnv) (bsize : Nat) (q : List RetryItem) :
    (process_retry_queue env true bsize q).queue
      = q.drop (min bsize q.length)
        ++ ((q.take (min bsize q.length)).enum.filterMap fun p => specDrainPush env p.1 p.2)
    ∧ (process_retry_queue env true bsize q).trace
      = (q.take (min bsize q.length)).enum.map fun p => (p.1, specDrainAction env p.1 p.2) := by
  cases q with
  | nil => simp [process_retry_queue]
  | cons a t =>
    unfold process_retry_queue
    rw [show ((a :: t).isEmpty) = false from rfl]
    constructor
    · rw [show ((if (false = true) then
          ({ queue := a :: t, successCount := 0, trace := [] } : DrainResult)
        else if (!true) = true then
          { queue := a :: t, successCount := 0, trace := [] }
        else
          drainGo env 0 ((a :: t).take (min bsize (a :: t).length))
            ((a :: t).drop (min bsize (a :: t).length))))
        = drainGo env 0 ((a :: t).take (min bsize (a :: t).length))
            ((a :: t).drop (min bsize (a :: t).length)) from rfl]
      rw [drainGo_queue, List.enum]
    · rw [show ((if (false = true) then
          ({ queue := a :: t, successCount := 0, trace := [] } : DrainResult)
        else if (!true) = true then
          { queue := a :: t, successCount := 0, trace := [] }
        else
          drainGo env 0 ((a :: t).take (min bsize (a :: t).length))
            ((a :: t).drop (min bsize (a :: t).length))))
        = drainGo env 0 ((a :: t).take (min bsize (a :: t).length))
            ((a :: t).drop (min bsize (a :: t).length)) from rfl]
      rw [drainGo_trace, List.enum]

theorem chunkGo_join :
    ∀ (fuel : Nat) (l : List Record), l.length ≤ fuel → (chunkGo fuel l).flatten = l := by
  intro fuel
  induction fuel with
  | zero =>
    intro l h
    have : l = [] := List.length_eq_zero.mp (Nat.le_zero.mp h)
    subst this
    rfl
  | succ n ih =>
    intro l h
    match l with
    | [] => rfl
    | r :: t =>
      rw [chunkGo, List.flatten_cons, ih ((r :: t).drop 10)
        (by simp only [List.length_drop, List.length_cons] at h ⊢; omega)]
      exact List.take_append_drop 10 (r :: t)

theorem chunkGo_mem_length :
    ∀ (fuel : Nat) (l : List Record) (b : List Record),
      b ∈ chunkGo fuel l → b.length ≤ 10 := by
  intro fuel
  induction fuel with
  | zero => intro l b hb; simp [chunkGo] at hb
  | succ n ih =>
    intro l b hb
    match l with
    | [] => simp [chunkGo] at hb
    | r :: t =>
      rw [chunkGo] at hb
      rcases List.mem_cons.mp hb with hb | hb
      · subst hb
        simp
      · exact ih _ _ hb

/-- C1 counterexample: a single-message write that completes successfully
(`.ret true`) leaves the matching Conversation Log entry with
`stored = false` — the claim's "marked `stored=true` before the call
returns" fails on main.py:565-567, which return `True` without touching
`conversation_history`. -/
theorem C1_success_leaves_stored_false :
    (store_conversation_message envOk "s" "user" (some (demoMsg 0)) [] [demoMsg 0]).result
      = .ret true
    ∧ (store_conversation_message envOk "s" "user" (some (demoMsg 0)) [] [demoMsg 0]).log.map
        Message.stored = [false] :=
  ⟨rfl, rfl⟩

/-- C1 (amended): a single-message write never flips any Log entry's
`stored` flag (success returns `True` without marking; the flag is only
set by the batch flush), and a write whose upsert fails (error response,
unexpected response, or a non-duplicate-key exception) enqueues a
RetryItem for the message and returns failure. -/
theorem C1_single_write_amended :
    (∀ (env : SingleEnv) (sid pid : String) (conv : Option Message)
        (q : List RetryItem) (log : List Message),
      (store_conversation_message env sid pid conv q log).log.map Message.stored
        = log.map Message.stored)
    ∧ (∀ (env : SingleEnv) (sid pid : String) (m : Message)
        (q : List RetryItem) (log : List Message),
      (env.speaking && pid == "system") = false →
      env.healthy = true →
      (m.serOk || m.safeOk) = true →
      (env.outcome = .errField ∨ env.outcome = .neither
        ∨ ∃ s, env.outcome = .exn s ∧ isDuplicateKeyError s = false) →
      (store_conversation_message env sid pid (some m) q log).result = .ret false
      ∧ (store_conversation_message env sid pid (some m) q log).queue
          = add_to_retry_queue env.now env.fresh sid pid (some (attachId env.fresh m)) q) := by
  constructor
  · intro env sid pid conv q log
    rw [scm_log_unchanged]
  · intro env sid pid m q log h1 h2 h3 h4
    rw [scm_fail_enqueue env sid pid m q log h1 h2 h3 h4]
    exact ⟨rfl, rfl⟩

/-- C1 witness: instantiating the amended claim at a concrete failing
write. -/
theorem C1_single_write_amended_witness :
    (store_conversation_message envErr "s" "user" (some (demoMsg 0)) [] [demoMsg 0]).result
      = .ret false
    ∧ (store_conversation_message envErr "s" "user" (some (demoMsg 0)) [] [demoMsg 0]).queue
        = add_to_retry_queue envErr.now envErr.fresh "s" "user"
            (some (attachId envErr.fresh (demoMsg 0))) [] :=
  C1_single_write_amended.2 envErr "s" "user" (demoMsg 0) [] [demoMsg 0]
    (by decide) (by decide) (by decide) (Or.inl rfl)

/-- C4 counterexample: an upsert exception whose message does NOT contain
the literal text "duplicate key" (it is upper-case) is still treated as
success with no RetryItem enqueued, because main.py:587 lower-cases the
message first — refuting "every other upsert error is treated as failure,
causing a RetryItem to be enqueued and failure to be returned". -/
theorem C4_uppercase_duplicate_is_success :
    strContains "DUPLICATE KEY value violates unique constraint" "duplicate key" = false
    ∧ (store_conversation_message envDup "s" "user" (some (demoMsg 0)) [] []).result
        = .ret true
    ∧ (store_conversation_message envDup "s" "user" (some (demoMsg 0)) [] []).queue = [] := by
  refine ⟨by decide, rfl, rfl⟩

/-- C4 (amended): the duplicate-key test is case-insensitive — an upsert
exception is treated as success (no enqueue) exactly when the lower-cased
message contains "duplicate key"; any other upsert exception, and any
error/unexpected response, is failure with a RetryItem enqueued. -/
theorem C4_duplicate_key_amended :
    (∀ (env : SingleEnv) (sid pid : String) (m : Message)
        (q : List RetryItem) (log : List Message) (s : String),
      (env.speaking && pid == "system") = false →
      env.healthy = true →
      (m.serOk || m.safeOk) = true →
      env.outcome = .exn s →
      (store_conversation_message env sid pid (some m) q log).result
        = .ret (isDuplicateKeyError s)
      ∧ (isDuplicateKeyError s = true →
          (store_conversation_message env sid pid (some m) q log).queue = q)
      ∧ (isDuplicateKeyError s = false →
          (store_conversation_message env sid pid (some m) q log).queue
            = add_to_retry_queue env.now env.fresh sid pid
                (some (attachId env.fresh m)) q))
    ∧ (∀ (env : SingleEnv) (sid pid : String) (m : Message)
        (q : List RetryItem) (log : List Message),
      (env.speaking && pid == "system") = false →
      env.healthy = true →
      (m.serOk || m.safeOk) = true →
      (env.outcome = .errField ∨ env.outcome = .neither) →
      (store_conversation_message env sid pid (some m) q log).result = .ret false
      ∧ (store_conversation_message env sid pid (some m) q log).queue
          = add_to_retry_queue env.now env.fresh sid pid
              (some (attachId env.fresh m)) q) := by
  constructor
  · intro env sid pid m q log s h1 h2 h3 h4
    cases h5 : isDuplicateKeyError s with
    | true =>
      rw [scm_duplicate env sid pid m q log s h1 h2 h3 h4 h5]
      refine ⟨rfl, fun _ => rfl, fun hc => ?_⟩
      simp at hc
    | false =>
      rw [scm_fail_enqueue env sid pid m q log h1 h2 h3 (Or.inr (Or.inr ⟨s, h4, h5⟩))]
      refine ⟨rfl, fun hc => ?_, fun _ => rfl⟩
      simp at hc
  · intro env sid pid m q log h1 h2 h3 h4
    rw [scm_fail_enqueue env sid pid m q log h1 h2 h3
      (h4.elim Or.inl (fun h => Or.inr (Or.inl h)))]
    exact ⟨rfl, rfl⟩

/-- C4 witness: a lower-case duplicate-key exception is success with the
queue untouched. -/
theorem C4_duplicate_key_amended_witness :
    (store_conversation_message envDupLower "s" "user" (some (demoMsg 0)) [] []).result
      = .ret (isDuplicateKeyError "duplicate key value violates unique constraint")
    ∧ (store_conversation_message envDupLower "s" "user" (some (demoMsg 0)) [] []).queue
        = [] :=
  have h := C4_duplicate_key_amended.1 envDupLower "s" "user" (demoMsg 0) [] []
    "duplicate key value violates unique constraint"
    (by decide) (by decide) (by decide) rfl
  ⟨h.1, h.2.1 (by decide)⟩

/-- C8 counterexample: in the single-message write, a message whose full
AND reduced serializations both fail makes the call raise (the fallback
`json.dumps` at main.py:523 is unguarded), instead of being "dropped with
a log entry" as the claim states — nothing is enqueued and no upsert is
attempted, but the failure propagates to the caller. -/
theorem C8_single_write_raises :
    (store_conversation_message envOk "s" "user" (some badMsg) [] []).result = .raised
    ∧ (store_conversation_message envOk "s" "user" (some badMsg) [] []).attempted = false
    ∧ (store_conversation_message envOk "s" "user" (some badMsg) [] []).queue = [] :=
  ⟨rfl, rfl, rfl⟩

/-- C8 (amended): serialization failure falls back to the reduced record
and retries once in both paths; in the batch flush a second failure drops
the message with a log entry and the flush continues with the remaining
messages, but in the single-message write the fallback serialization is
unguarded, so a second failure propagates as an exception (no logged
drop, no enqueue). -/
theorem C8_serialization_fallback_amended :
    (∀ (sid : String) (fresh : Nat → String) (log : List Message) (i : Nat),
      (collectGo sid fresh i log).2 = log.filterMap (recordOf sid))
    ∧ (∀ (sid : String) (m : Message),
      m.stored = false → m.serOk = false → m.safeOk = true →
      recordOf sid m = some (safeRec sid m))
    ∧ (∀ (sid : String) (m : Message),
      m.serOk = false → m.safeOk = false → recordOf sid m = none)
    ∧ (∀ (env : SingleEnv) (sid pid : String) (m : Message)
        (q : List RetryItem) (log : List Message),
      (env.speaking && pid == "system") = false →
      env.healthy = true →
      m.serOk = false → m.safeOk = false →
      store_conversation_message env sid pid (some m) q log
        = { result := .raised, probed := true, attempted := false
            queue := q, log := log }) := by
  refine ⟨fun sid fresh log i => collectGo_records sid fresh log i, ?_, ?_, ?_⟩
  · intro sid m hs hso hsa
    simp [recordOf, hs, hso, hsa]
  · intro sid m hso hsa
    unfold recordOf
    rw [hso, hsa]
    split <;> rfl
  · intro env sid pid m q log h1 h2 h3 h4
    exact scm_raised env sid pid m q log h1 h2 h3 h4

/-- C8 witness: instantiating the amended claim at concrete inputs. -/
theorem C8_serialization_fallback_amended_witness :
    recordOf "s" { demoMsg 0 with serOk := false }
      = some (safeRec "s" { demoMsg 0 with serOk := false })
    ∧ recordOf "s" badMsg = none
    ∧ store_conversation_message envOk "s" "user" (some badMsg) [] []
        = { result := .raised, probed := true, attempted := false
            queue := [], log := [] } :=
  ⟨C8_serialization_fallback_amended.2.1 "s" { demoMsg 0 with serOk := false }
      rfl rfl rfl,
   C8_serialization_fallback_amended.2.2.1 "s" badMsg rfl rfl,
   C8_serialization_fallback_amended.2.2.2 envOk "s" "user" badMsg [] []
      (by decide) (by decide) rfl rfl⟩

/-- C9: the idle watchdog, woken 301 seconds after the Log's newest
timestamp, appends the synthetic inactivity system message — but the
`ForceDisconnectError` it raises is caught by its own `except Exception`
(main.py:1516-1523), so the loop merely exits: nothing escapes to
disconnect the session or transition it to TERMINATING.  This documents
the code bug behind the claim. -/
theorem C9_watchdog_never_escalates :
    check_connection_status_step wenv301 [staleMsg] 1000
      = { log := [staleMsg, inactivitySystemMessage "T301"], lastActivity := 1000
          loops := false, escalated := false, storeLaunched := true }
    ∧ (∀ (env : WatchdogEnv) (log : List Message) (last : Int),
        (check_connection_status_step env log last).escalated = false) := by
  constructor
  · rfl
  · intro env log last
    simp only [check_connection_status_step]
    (repeat' split) <;> rfl

/-- C10: a single-message write invoked while the agent is speaking with
`participant_id = "system"` immediately enqueues the message and returns
failure, with no health probe and no upsert attempt, and the RetryItem is
created with `retry_count = 0`. -/
theorem C10_speaking_system_shortcut :
    ∀ (env : SingleEnv) (sid : String) (conv : Option Message)
      (q : List RetryItem) (log : List Message),
      env.speaking = true →
      store_conversation_message env sid "system" conv q log
        = { result := .ret false, probed := false, attempted := false
            queue := add_to_retry_queue env.now env.fresh sid "system" conv q
            log := log }
      ∧ (mkRetryItem env.now env.fresh sid "system" conv).retry_count = 0 := by
  intro env sid conv q log h
  constructor
  · have hc : (env.speaking && ("system" == "system")) = true := by
      rw [h]; rfl
    simp only [store_conversation_message, hc]
    rfl
  · cases conv <;> rfl

/-- C10 witness: the shortcut at a concrete speaking-time system write. -/
theorem C10_speaking_system_shortcut_witness :
    store_conversation_message envSpeak "s" "system" (some (demoMsg 0)) [] [demoMsg 0]
      = { result := .ret false, probed := false, attempted := false
          queue := add_to_retry_queue envSpeak.now envSpeak.fresh "s" "system"
            (some (demoMsg 0)) []
          log := [demoMsg 0] }
    ∧ (mkRetryItem envSpeak.now envSpeak.fresh "s" "system" (some (demoMsg 0))).retry_count
        = 0 :=
  C10_speaking_system_shortcut envSpeak "s" (some (demoMsg 0)) [] [demoMsg 0] rfl

/-- C2 counterexample: a full flush run against an unhealthy store
(`fenv12.healthy = false`) still issues batch upserts while its event
trace contains no health probe at all — `store_full_conversation`
(main.py:604-624) checks only that the client object is non-None and
never calls `check_supabase_health`, refuting "the health probe is run
first before every write attempt, single or batch". -/
theorem C2_flush_never_probes_counterexample :
    fenv12.healthy = false
    ∧ FlushEvent.probe ∉ (store_full_conversation fenv12 "s" log12).events
    ∧ FlushEvent.batchUpsert ((List.range 10).map fun i => fullRec "s" (demoMsg i))
        ∈ (store_full_conversation fenv12 "s" log12).events :=
  ⟨rfl, store_full_conversation_no_probe fenv12 "s" log12, by decide⟩

/-- C2 (amended): the single-message write runs the health probe before
any upsert and, on an unhealthy report, enqueues the message and returns
failure without attempting the write; the batch flush, however, never
runs the health probe at all (it only requires the client object to be
non-None). -/
theorem C2_health_gate_amended :
    (∀ (env : SingleEnv) (sid pid : String) (conv : Option Message)
        (q : List RetryItem) (log : List Message),
      (env.speaking && pid == "system") = false →
      env.healthy = false →
      store_conversation_message env sid pid conv q log
        = { result := .ret false, probed := true, attempted := false
            queue := add_to_retry_queue env.now env.fresh sid pid conv q
            log := log })
    ∧ (∀ (env : FlushEnv) (sid : String) (log : List Message),
      FlushEvent.probe ∉ (store_full_conversation env sid log).events) := by
  constructor
  · intro env sid pid conv q log h1 h2
    have hh : (!env.healthy) = true := by rw [h2]; rfl
    simp only [store_conversation_message, h1, hh]
    rfl
  · intro env sid log
    exact store_full_conversation_no_probe env sid log

/-- C2 witness: the single-write health gate at a concrete unhealthy
call, and the probe-free flush at a concrete run. -/
theorem C2_health_gate_amended_witness :
    store_conversation_message envDown "s" "user" (some (demoMsg 0)) [] [demoMsg 0]
      = { result := .ret false, probed := true, attempted := false
          queue := add_to_retry_queue envDown.now envDown.fresh "s" "user"
            (some (demoMsg 0)) []
          log := [demoMsg 0] }
    ∧ FlushEvent.probe ∉ (store_full_conversation fenv12 "s" log12).events :=
  ⟨C2_health_gate_amended.1 envDown "s" "user" (some (demoMsg 0)) [] [demoMsg 0]
      (by decide) rfl,
   C2_health_gate_amended.2 fenv12 "s" log12⟩

/-- C5: the flush partitions the collected records in order into
consecutive groups of at most 10 (flattening the groups gives back the
record list); a failed group falls back to one single upsert per member;
and on the concrete 12-unstored-message run with the second batch
failing, the trace is one batch of 10, one batch of 2, then exactly 2
individual upserts, with a ~0.5s sleep after each group, and every
message ends up marked `stored`. -/
theorem C5_batch_flush_fallback :
    (∀ recs : List Record, (chunk10 recs).flatten = recs)
    ∧ (∀ (recs b : List Record), b ∈ chunk10 recs → b.length ≤ 10)
    ∧ (∀ (env : FlushEnv) (k : Nat) (recs : List Record) (j : Nat) (log : List Message),
      (singlesGo env k j log recs).events = recs.map FlushEvent.singleUpsert)
    ∧ (store_full_conversation fenv12 "s" log12).events
        = [.batchUpsert ((List.range 10).map fun i => fullRec "s" (demoMsg i)), .sleep,
           .batchUpsert [fullRec "s" (demoMsg 10), fullRec "s" (demoMsg 11)],
           .singleUpsert (fullRec "s" (demoMsg 10)),
           .singleUpsert (fullRec "s" (demoMsg 11)), .sleep]
    ∧ (store_full_conversation fenv12 "s" log12).log.map Message.stored
        = List.replicate 12 true := by
  refine ⟨fun recs => chunkGo_join recs.length recs le_rfl,
    fun recs b hb => chunkGo_mem_length recs.length recs b hb,
    fun env k recs j log => singlesGo_events env k recs j log,
    by decide, by decide⟩

/-- C5 witness: a concrete one-record chunk is a member of its own
chunking and respects the bound. -/
theorem C5_batch_flush_fallback_witness :
    ([fullRec "s" (demoMsg 0)] : List Record).length ≤ 10 :=
  C5_batch_flush_fallback.2.1 [fullRec "s" (demoMsg 0)] [fullRec "s" (demoMsg 0)]
    (by decide)

/-- C6: during a drain cycle, each popped non-exhausted item is pushed
back (with `retry_count` incremented) exactly when the probe is unhealthy
or the upsert fails, and discarded when the upsert succeeds; exhausted
items are dropped.  Stated as: the queue left behind is the unpopped
suffix plus the per-item push-backs in order, and the trace records the
per-item policy `specDrainAction`. -/
theorem C6_drain_item_policy :
    ∀ (env : DrainEnv) (bsize : Nat) (q : List RetryItem),
      (process_retry_queue env true bsize q).queue
        = q.drop (min bsize q.length)
          ++ ((q.take (min bsize q.length)).enum.filterMap fun p =>
              specDrainPush env p.1 p.2)
      ∧ (process_retry_queue env true bsize q).trace
        = (q.take (min bsize q.length)).enum.map fun p =>
            (p.1, specDrainAction env p.1 p.2) :=
  fun env bsize q => process_retry_queue_spec env bsize q

/-- C7: every popped item with `retry_count ≥ 5` is permanently dropped:
its per-item action is `skippedExhausted` (so no upsert is attempted for
it) and its push-back is `none`, so it contributes nothing to the queue
left behind. -/
theorem C7_exhausted_items_dropped :
    ∀ (env : DrainEnv) (bsize : Nat) (q : List RetryItem) (k : Nat) (it : RetryItem),
      (k, it) ∈ (q.take (min bsize q.length)).enum →
      5 ≤ it.retry_count →
      specDrainPush env k it = none
      ∧ (k, DrainAction.skippedExhausted) ∈ (process_retry_queue env true bsize q).trace
      ∧ (process_retry_queue env true bsize q).queue
          = q.drop (min bsize q.length)
            ++ ((q.take (min bsize q.length)).enum.filterMap fun p =>
                specDrainPush env p.1 p.2) := by
  intro env bsize q k it hmem h5
  refine ⟨by simp [specDrainPush, h5], ?_, (process_retry_queue_spec env bsize q).1⟩
  rw [(process_retry_queue_spec env bsize q).2]
  refine List.mem_map.mpr ⟨(k, it), hmem, ?_⟩
  simp [specDrainAction, h5]

/-- C7 witness: a concrete exhausted item is skipped and dropped. -/
theorem C7_exhausted_items_dropped_witness :
    specDrainPush denvOk 0 exhaustedItem = none
    ∧ (0, DrainAction.skippedExhausted)
        ∈ (process_retry_queue denvOk true 5 [exhaustedItem]).trace
    ∧ (process_retry_queue denvOk true 5 [exhaustedItem]).queue
        = [exhaustedItem].drop (min 5 [exhaustedItem].length)
          ++ (([exhaustedItem].take (min 5 [exhaustedItem].length)).enum.filterMap fun p =>
              specDrainPush denvOk p.1 p.2) :=
  C7_exhausted_items_dropped denvOk 5 [exhaustedItem] 0 exhaustedItem
    (by decide) (by decide)

end Prepzo
